import Mathlib

/-!
Verification development for the bulk image generation orchestrator.

The definitions below are a shallow embedding of the program:
the error classifiers and history store of services/apiService.ts,
the per-prompt retry loop and run loop of GeneratorPage.handleGenerate
(components/HistoryPage.tsx), and the persistence handler
handleGenerationUpdate of App.tsx.  Stateful code is modelled by explicit
state passing on the record type RunSt; the provider gateway is an oracle
indexed by the number of calls made so far; the user's cooperative
cancellation flag is modelled by an optional threshold on the number of
flag reads performed so far (the flag is observed true from that read
onward, reflecting that the flag is set once and never cleared during a
run).

One fidelity point is essential: handleGenerate is a useCallback closure,
so the apiKeys array it filters is the one captured when the run began;
App's updateApiKeyStatus replaces the App-level state with a new array and
never mutates the captured one, so the active set the loop sees cannot
shrink during a run.  The loops below therefore filter the frozen
captured array (the ak parameter), while the status updates the loop
issues are threaded through RunSt as the App-level pool, which the user
interface, persistence and the next run observe.
-/

namespace BulkGen

/-- Status of an API key, from types.ts (ApiKeyStatus). The spec calls
the RateLimited status Degraded. -/
inductive ApiKeyStatus where
  | Active
  | RateLimited
deriving DecidableEq, Repr

/-- Provider selector, from types.ts (AIService). -/
inductive AIService where
  | Gemini
  | OpenAI
deriving DecidableEq, Repr

/-- An API key record, from types.ts (ApiKey). -/
structure ApiKey where
  key : String
  status : ApiKeyStatus
  service : AIService
deriving DecidableEq, Repr

/-- Outcome of one prompt, from types.ts (GenerationResult). -/
structure GenerationResult where
  prompt : String
  images : List String
  error : Option String := none
deriving DecidableEq, Repr

/-- One persisted session, from types.ts (HistoryItem). -/
structure HistoryItem where
  id : String
  date : String
  results : List GenerationResult
deriving DecidableEq, Repr

/-- Numeric or string error code, as JavaScript errors carry either. -/
inductive JsCode where
  | num : Int → JsCode
  | str : String → JsCode
deriving DecidableEq, Repr

/-- A nested error payload one level down (the value of an outer error
field). The classifiers unwrap at most one level, so this inner value
carries no further nesting. -/
inductive JsLeaf where
  | null : JsLeaf
  | str : String → JsLeaf
  | errInst : String → JsLeaf
  | obj : Option String → Option String → Option JsCode → JsLeaf
deriving DecidableEq, Repr

/-- Model of the duck-typed error values inspected by the classifiers in
services/apiService.ts: null/undefined, a thrown string, an Error
instance (which has a message, no own error key, and stringifies to an
empty object), or a plain object with the optional fields error, message,
status and code that the classifiers read. -/
inductive JsError where
  | null : JsError
  | str : String → JsError
  | errInst : String → JsError
  | obj : Option JsLeaf → Option String → Option String → Option JsCode → JsError
deriving DecidableEq, Repr

/-- Embedding of an inner payload back into the error type: the inner
value has no error field of its own. -/
def JsLeaf.toErr : JsLeaf → JsError
  | .null => .null
  | .str s => .str s
  | .errInst m => .errInst m
  | .obj m s c => .obj none m s c

namespace JsError

/-- The nested error field of an object, undefined elsewhere. -/
def errField : JsError → Option JsLeaf
  | .obj e _ _ _ => e
  | _ => none

/-- The message field visible on an object or an Error instance. -/
def msgField : JsError → Option String
  | .obj _ m _ _ => m
  | .errInst m => some m
  | _ => none

/-- The status field of an object, undefined elsewhere. -/
def statusField : JsError → Option String
  | .obj _ _ s _ => s
  | _ => none

/-- The code field of an object, undefined elsewhere. -/
def codeField : JsError → Option JsCode
  | .obj _ _ _ c => c
  | _ => none

end JsError

/-- JavaScript falsiness for the error values we model: null/undefined and
the empty string are falsy. -/
def jsFalsy : JsError → Bool
  | .null => true
  | .str s => s == ""
  | _ => false

/-- The expression error.error || error used by getErrorMessage and
isRateLimitError. -/
def jsOrSelf (error : JsError) : JsError :=
  match error.errField with
  | some e => if jsFalsy e.toErr then error else e.toErr
  | none => error

/-- Escaping of one character inside a JSON string value. -/
def jsonEscapeChar (c : Char) : String :=
  if c = '"' then "\\\"" else if c = '\\' then "\\\\" else String.singleton c

/-- JSON string escaping restricted to quotes and backslashes, enough for
the error payloads this program builds. -/
def jsonEscape (s : String) : String :=
  String.join (s.data.map jsonEscapeChar)

/-- JSON.stringify on a nested payload. Error instances have only
non-enumerable own properties and therefore stringify to an empty object. -/
def stringifyLeaf : JsLeaf → String
  | .null => "null"
  | .str s => "\"" ++ jsonEscape s ++ "\""
  | .errInst _ => "\x7b\x7d"
  | .obj m s c =>
    let fields :=
      (match m with
        | some m' => ["\"message\":\"" ++ jsonEscape m' ++ "\""]
        | none => []) ++
      (match s with
        | some s' => ["\"status\":\"" ++ jsonEscape s' ++ "\""]
        | none => []) ++
      (match c with
        | some (.num n) => ["\"code\":" ++ toString n]
        | some (.str cs) => ["\"code\":\"" ++ jsonEscape cs ++ "\""]
        | none => [])
    "\x7b" ++ String.intercalate "," fields ++ "\x7d"

/-- JSON.stringify on the modelled error values. Error instances have only
non-enumerable own properties and therefore stringify to an empty object;
object fields render in declaration order (error, message, status, code). -/
def stringifyJs : JsError → String
  | .null => "null"
  | .str s => "\"" ++ jsonEscape s ++ "\""
  | .errInst _ => "\x7b\x7d"
  | .obj e m s c =>
    let fields :=
      (match e with
        | some e' => ["\"error\":" ++ stringifyLeaf e']
        | none => []) ++
      (match m with
        | some m' => ["\"message\":\"" ++ jsonEscape m' ++ "\""]
        | none => []) ++
      (match s with
        | some s' => ["\"status\":\"" ++ jsonEscape s' ++ "\""]
        | none => []) ++
      (match c with
        | some (.num n) => ["\"code\":" ++ toString n]
        | some (.str cs) => ["\"code\":\"" ++ jsonEscape cs ++ "\""]
        | none => [])
    "\x7b" ++ String.intercalate "," fields ++ "\x7d"

/-- Whether the first list occurs at the head of the second. -/
def hasPre : List Char → List Char → Bool
  | [], _ => true
  | _ :: _, [] => false
  | p :: ps, c :: cs => p == c && hasPre ps cs

/-- Whether the first list occurs contiguously anywhere in the second. -/
def hasSubList (pat : List Char) : List Char → Bool
  | [] => hasPre pat []
  | c :: cs => hasPre pat (c :: cs) || hasSubList pat cs

/-- String.prototype.includes: substring containment. -/
def containsSub (s pat : String) : Bool :=
  hasSubList pat.data s.data

/-- String.prototype.toLowerCase, as a character map. -/
def toLowerS (s : String) : String :=
  ⟨s.data.map Char.toLower⟩

/-- String.prototype.trim: strip whitespace from both ends. -/
def trimS (s : String) : String :=
  ⟨((s.data.dropWhile Char.isWhitespace).reverse.dropWhile Char.isWhitespace).reverse⟩

/-- String.prototype.split on the newline character, on character lists:
splitting the empty text yields one empty piece, exactly as in
JavaScript. -/
def splitCharsNl : List Char → List (List Char)
  | [] => [[]]
  | c :: cs =>
    if c = '\n' then [] :: splitCharsNl cs
    else
      match splitCharsNl cs with
      | [] => [[c]]
      | h :: t => (c :: h) :: t

/-- String.prototype.split('\n') on strings. -/
def splitOnNlS (s : String) : List String :=
  (splitCharsNl s.data).map (fun l => ⟨l⟩)

/-- getErrorMessage from services/apiService.ts: extract a user-facing
message from an arbitrary thrown value. -/
def getErrorMessage (error : JsError) : String :=
  if jsFalsy error then "An unknown error occurred."
  else
    let errorDetails := jsOrSelf error
    match errorDetails.msgField with
    | some m =>
      if m ≠ "" then m
      else fallbackMsg error
    | none => fallbackMsg error
where
  /-- The tail of getErrorMessage: the string case, the JSON.stringify
  attempt, and the final fallback. -/
  fallbackMsg (error : JsError) : String :=
    match error with
    | .str s => s
    | _ =>
      let stringifiedError := stringifyJs error
      if stringifiedError ≠ "\x7b\x7d" then stringifiedError
      else "An unknown error occurred. Check the console for details."

/-- isRateLimitError from services/apiService.ts. -/
def isRateLimitError (error : JsError) : Bool :=
  if jsFalsy error then false
  else
    let details := jsOrSelf error
    if details.statusField == some "RESOURCE_EXHAUSTED" || details.codeField == some (.num 429) then
      true
    else if details.codeField == some (.str "rate_limit_exceeded") then
      true
    else
      let message := toLowerS (getErrorMessage error)
      containsSub message "quota" || containsSub message "rate limit" ||
        containsSub message "resource exhausted"

/-- isPromptError from services/apiService.ts: whether the failure is a
prompt rejection. -/
def isPromptError (error : JsError) : Bool :=
  let message := toLowerS (getErrorMessage error)
  containsSub message "prompt" || containsSub message "safety"

/-- Array.prototype.findIndex on the history list, as an option-valued
index. -/
def findIndex (p : HistoryItem → Bool) : List HistoryItem → Option Nat
  | [] => none
  | item :: rest =>
    if p item then some 0 else (findIndex p rest).map (· + 1)

/-- In-place replacement of the results field of the entry at the given
index, modelling updatedHistory[itemIndex].results = newResults. -/
def setResultsAt : List HistoryItem → Nat → List GenerationResult → List HistoryItem
  | [], _, _ => []
  | item :: rest, 0, newResults => { item with results := newResults } :: rest
  | item :: rest, n + 1, newResults => item :: setResultsAt rest n newResults

/-- updateHistory from services/apiService.ts: upsert the outcome list of
one session into the persisted history. The date argument stands for
new Date().toLocaleString() at call time, used only when a new entry is
created. Loading and saving of browser storage are modelled by passing the
stored history value in and out. -/
def updateHistory (date sessionId : String) (newResults : List GenerationResult)
    (currentHistory : List HistoryItem) : List HistoryItem :=
  match findIndex (fun item => item.id == sessionId) currentHistory with
  | some itemIndex => setResultsAt currentHistory itemIndex newResults
  | none => ⟨sessionId, date, newResults⟩ :: currentHistory

/-- Truthiness of the optional error field of a GenerationResult:
undefined and the empty string are falsy. -/
def jsTruthyStr : Option String → Bool
  | none => false
  | some s => s != ""

/-- handleGenerationUpdate from App.tsx: persist the accumulated outcome
list for a session, but only when some outcome carries at least one
image. -/
def handleGenerationUpdate (sessionId : String) (results : List GenerationResult)
    (date : String) (history : List HistoryItem) : List HistoryItem :=
  if results.any (fun r => decide (r.images.length > 0)) then
    updateHistory date sessionId results history
  else history

/-- The active members of the key pool, in pool order
(apiKeys.filter(k => k.status === ApiKeyStatus.Active)). -/
def activeKeys (pool : List ApiKey) : List ApiKey :=
  pool.filter (fun k => k.status == ApiKeyStatus.Active)

/-- updateApiKeyStatus from App.tsx: set the status of the key with the
given secret, leaving every other entry unchanged. -/
def updateApiKeyStatus (key : String) (status : ApiKeyStatus)
    (apiKeys : List ApiKey) : List ApiKey :=
  apiKeys.map (fun k => if k.key == key then { k with status := status } else k)

/-- Placeholder key used to express list indexing with a default; the
index is always in bounds when it is used. -/
def dfltKey : ApiKey := ⟨"", ApiKeyStatus.Active, AIService.Gemini⟩

/-- State threaded through one generation run: the key pool, the
accumulated outcome list (finalResults), the persisted history, the number
of gateway calls made, the number of cancellation-flag reads at each of
the four read sites of handleGenerate, the time units spent in rate-limit
cool-down waits, and the component's persisted rotating key index
(setCurrentKeyIndex). -/
structure RunSt where
  pool : List ApiKey
  results : List GenerationResult
  history : List HistoryItem
  calls : Nat
  checksPrompt : Nat
  checksAttempt : Nat
  checksWait : Nat
  checksPost : Nat
  elapsed : Nat
  savedKeyIndex : Nat
deriving DecidableEq, Repr

/-- Total number of cancellation-flag reads performed so far; the next
read has this index. -/
def RunSt.checks (st : RunSt) : Nat :=
  st.checksPrompt + st.checksAttempt + st.checksWait + st.checksPost

/-- The value the cancellation flag shows at the read with the given
index: with no cancellation it is always false, and with a cancellation
threshold t it is true from read t onward (the flag is set once, never
cleared during a run). -/
def stoppedAt (c : Option Nat) (n : Nat) : Bool :=
  match c with
  | none => false
  | some t => decide (t ≤ n)

/-- Type of the gateway oracle: the observed behaviour of
generateImages(prompt, apiKey, numImages) at the n-th gateway call of the
run, either a list of images or a thrown error. -/
def Gateway : Type :=
  Nat → String → String → Nat → Except JsError (List String)

/-- The retry loop of GeneratorPage.handleGenerate for one prompt
(the while loop over credential attempts). The fuel argument is the
number of attempts still allowed, initially the size of the active-key
snapshot taken at prompt start, so that the loop guard
attempts < activeKeysForPrompt.length is fuel > 0. Returns the
promptResult so far, the success flag, the updated rotating key index and
the updated run state.  The active-key filters read the ak parameter, the
apiKeys array captured by the closure at run start, which App's immutable
state updates never change mid-run; the status updates the loop issues go
to the App-level pool threaded in the state. -/
def tryLoop (gw : Gateway) (c : Option Nat) (prompt : String) (numImages : Nat)
    (ak : List ApiKey) :
    Nat → Nat → RunSt → Option GenerationResult × Bool × Nat × RunSt
  | 0, keyIdx, st => (none, false, keyIdx, st)
  | fuel + 1, keyIdx, st =>
    let st1 := { st with checksAttempt := st.checksAttempt + 1 }
    if stoppedAt c st.checks then (none, false, keyIdx, st1)
    else
      let currentActiveKeys := activeKeys ak
      if currentActiveKeys.isEmpty then
        (some ⟨prompt, [], some "All available keys are rate-limited."⟩, false, keyIdx, st1)
      else
        let keyIdx1 := keyIdx % currentActiveKeys.length
        let apiKey := currentActiveKeys.getD keyIdx1 dfltKey
        let st2 := { st1 with calls := st1.calls + 1 }
        match gw st1.calls prompt apiKey.key numImages with
        | .ok generatedImages =>
          (some ⟨prompt, generatedImages, none⟩, true, keyIdx1,
            { st2 with savedKeyIndex := keyIdx1 })
        | .error e =>
          if isPromptError e then
            (some ⟨prompt, [], some (getErrorMessage e)⟩, false, keyIdx1, st2)
          else
            let st3 := { st2 with
              pool := updateApiKeyStatus apiKey.key ApiKeyStatus.RateLimited st2.pool }
            let st4 :=
              if isRateLimitError e then
                { st3 with
                  checksWait := st3.checksWait + 1,
                  elapsed := st3.elapsed + (if stoppedAt c st3.checks then 0 else 2) }
              else st3
            tryLoop gw c prompt numImages ak fuel (keyIdx1 + 1) st4

/-- The synthetic outcome recorded when the retry loop runs out of
credentials without success. -/
def exhaustedMsg : String := "All active API keys failed or are rate limited."

/-- The outer prompt loop of GeneratorPage.handleGenerate: process each
prompt in order, threading the rotating key index and the run state.  The
per-prompt snapshot activeKeysForPrompt filters the same captured apiKeys
array ak as the retry loop, so it is always the run-start active set. -/
def runPrompts (gw : Gateway) (c : Option Nat) (sessionId date : String)
    (numImages : Nat) (ak : List ApiKey) : List String → Nat → RunSt → RunSt
  | [], _, st => st
  | prompt :: rest, keyIdx, st =>
    let st1 := { st with checksPrompt := st.checksPrompt + 1 }
    if stoppedAt c st.checks then st1
    else
      let activeKeysForPrompt := activeKeys ak
      let r := tryLoop gw c prompt numImages ak activeKeysForPrompt.length keyIdx st1
      let pr := r.1
      let success := r.2.1
      let keyIdx1 := r.2.2.1
      let st2 := r.2.2.2
      let st3 := { st2 with checksPost := st2.checksPost + 1 }
      if stoppedAt c st2.checks then st3
      else
        let promptResult :=
          if !success && pr.isNone then some ⟨prompt, [], some exhaustedMsg⟩ else pr
        match promptResult with
        | none => runPrompts gw c sessionId date numImages ak rest keyIdx1 st3
        | some res =>
          let finalResults := st3.results ++ [res]
          let st4 := { st3 with
            results := finalResults,
            history :=
              if decide (res.images.length > 0) || jsTruthyStr res.error then
                handleGenerationUpdate sessionId finalResults date st3.history
              else st3.history }
          runPrompts gw c sessionId date numImages ak rest keyIdx1 st4

/-- The prompt preprocessing at the start of handleGenerate:
prompts.trim().split('\n').filter(p => p.trim() !== ''). -/
def promptsToProcess (prompts : String) : List String :=
  (splitOnNlS (trimS prompts)).filter (fun p => trimS p ≠ "")

/-- The run state at the start of a run: the caller's key pool and stored
history, empty results, zero counters, and the component's current
rotating key index. -/
def initSt (apiKeys : List ApiKey) (h0 : List HistoryItem) (keyIdx0 : Nat) : RunSt :=
  ⟨apiKeys, [], h0, 0, 0, 0, 0, 0, 0, keyIdx0⟩

/-- GeneratorPage.handleGenerate: the guards on an empty prompt box and an
empty active pool abort before any run (returning none); otherwise the
prompt loop runs to completion or cancellation. -/
def handleGenerate (gw : Gateway) (c : Option Nat) (prompts : String)
    (numImages : Nat) (apiKeys : List ApiKey) (currentKeyIndex : Nat)
    (sessionId date : String) (h0 : List HistoryItem) : Option RunSt :=
  if trimS prompts = "" then none
  else if (activeKeys apiKeys).isEmpty then none
  else
    some (runPrompts gw c sessionId date numImages apiKeys (promptsToProcess prompts)
      currentKeyIndex (initSt apiKeys h0 currentKeyIndex))

/-- generateImages from services/apiService.ts: the dispatcher over
providers. The provider back ends (the fetch calls of
generateImagesGemini and generateImagesOpenAI) are oracles; the second
component of the result counts how many provider calls were made. The
service argument is the runtime string value of the AIService enum, since
the dispatcher has a default branch for unknown values. -/
def generateImagesModel
    (gem : String → String → Nat → Except JsError (List String))
    (opa : String → String → Except JsError (List String))
    (prompt apiKey : String) (numImages : Nat) (service : String) :
    Except JsError (List String) × Nat :=
  if apiKey == "" || trimS apiKey == "" then
    (.error (.errInst "A valid API key must be provided."), 0)
  else
    let inner : Except JsError (List String) × Nat :=
      if service == "Gemini" then (gem prompt apiKey numImages, 1)
      else if service == "OpenAI" then (opa prompt apiKey, 1)
      else (.error (.errInst ("Unsupported AI service: " ++ service)), 0)
    match inner.1 with
    | .ok imgs => (.ok imgs, inner.2)
    | .error e =>
      match e with
      | .errInst _ =>
        (.error (.errInst ("Failed to call the " ++ service ++
          " API. Please check your network connection or console for details.")), inner.2)
      | _ => (.error e, inner.2)

theorem stoppedAt_none (n : Nat) : stoppedAt none n = false := rfl

theorem findIndex_setResultsAt (sid : String) :
    ∀ (h : List HistoryItem) (i : Nat) (rs : List GenerationResult),
      findIndex (fun item => item.id == sid) (setResultsAt h i rs)
        = findIndex (fun item => item.id == sid) h := by
  intro h
  induction h with
  | nil => intro i rs; cases i <;> rfl
  | cons item rest ih =>
    intro i rs
    cases i with
    | zero => simp [setResultsAt, findIndex]
    | succ n => simp [setResultsAt, findIndex, ih]

theorem setResultsAt_setResultsAt :
    ∀ (h : List HistoryItem) (i : Nat) (rs : List GenerationResult),
      setResultsAt (setResultsAt h i rs) i rs = setResultsAt h i rs := by
  intro h
  induction h with
  | nil => intro i rs; cases i <;> rfl
  | cons item rest ih =>
    intro i rs
    cases i with
    | zero => simp [setResultsAt]
    | succ n => simp [setResultsAt, ih]

theorem setResultsAt_length :
    ∀ (h : List HistoryItem) (i : Nat) (rs : List GenerationResult),
      (setResultsAt h i rs).length = h.length := by
  intro h
  induction h with
  | nil => intro i rs; cases i <;> rfl
  | cons item rest ih =>
    intro i rs
    cases i with
    | zero => simp [setResultsAt]
    | succ n => simp [setResultsAt, ih]

theorem setResultsAt_get_ne :
    ∀ (h : List HistoryItem) (i : Nat) (rs : List GenerationResult) (j : Nat),
      j ≠ i → (setResultsAt h i rs)[j]? = h[j]? := by
  intro h
  induction h with
  | nil => intro i rs j _; cases i <;> rfl
  | cons item rest ih =>
    intro i rs j hne
    cases i with
    | zero =>
      cases j with
      | zero => exact absurd rfl hne
      | succ m => simp [setResultsAt]
    | succ n =>
      cases j with
      | zero => simp [setResultsAt]
      | succ m =>
        simp only [setResultsAt, List.getElem?_cons_succ]
        exact ih n rs m (fun hc => hne (by omega))

theorem setResultsAt_get_eq :
    ∀ (h : List HistoryItem) (i : Nat) (rs : List GenerationResult) (item : HistoryItem),
      h[i]? = some item →
      (setResultsAt h i rs)[i]? = some { item with results := rs } := by
  intro h
  induction h with
  | nil => intro i rs item hit; simp at hit
  | cons hd rest ih =>
    intro i rs item hit
    cases i with
    | zero =>
      simp only [List.getElem?_cons_zero, Option.some_inj] at hit
      simp [setResultsAt, hit]
    | succ n =>
      simp only [List.getElem?_cons_succ] at hit
      simpa [setResultsAt] using ih n rs item hit

theorem findIndex_eq_none (sid : String) :
    ∀ (h : List HistoryItem), (∀ item ∈ h, item.id ≠ sid) →
      findIndex (fun item => item.id == sid) h = none := by
  intro h
  induction h with
  | nil => intro _; rfl
  | cons item rest ih =>
    intro habs
    have h1 : item.id ≠ sid := habs item (List.mem_cons_self _ _)
    have h2 : ∀ it ∈ rest, it.id ≠ sid := fun it hm => habs it (List.mem_cons_of_mem _ hm)
    simp [findIndex, h1, ih h2]

theorem findIndex_some_spec (p : HistoryItem → Bool) :
    ∀ (h : List HistoryItem) (i : Nat), findIndex p h = some i →
      ∃ item, h[i]? = some item ∧ p item = true := by
  intro h
  induction h with
  | nil => intro i hf; simp [findIndex] at hf
  | cons item rest ih =>
    intro i hf
    by_cases hp : p item
    · simp [findIndex, hp] at hf
      exact ⟨item, by simp [← hf], hp⟩
    · simp [findIndex, hp] at hf
      rcases hf with ⟨j, hj, rfl⟩
      rcases ih j hj with ⟨it, hget, hpit⟩
      exact ⟨it, by simpa using hget, hpit⟩

theorem mem_setResultsAt :
    ∀ (h : List HistoryItem) (i : Nat) (rs : List GenerationResult) (item : HistoryItem),
      item ∈ setResultsAt h i rs →
      (∃ orig ∈ h, item = { orig with results := rs }) ∨ item ∈ h := by
  intro h
  induction h with
  | nil => intro i rs item hm; cases i <;> simp [setResultsAt] at hm
  | cons hd rest ih =>
    intro i rs item hm
    cases i with
    | zero =>
      simp only [setResultsAt, List.mem_cons] at hm
      rcases hm with rfl | hm
      · exact Or.inl ⟨hd, List.mem_cons_self _ _, rfl⟩
      · exact Or.inr (List.mem_cons_of_mem _ hm)
    | succ n =>
      simp only [setResultsAt, List.mem_cons] at hm
      rcases hm with rfl | hm
      · exact Or.inr (List.mem_cons_self _ _)
      · rcases ih n rs item hm with ⟨orig, ho, rfl⟩ | hmem
        · exact Or.inl ⟨orig, List.mem_cons_of_mem _ ho, rfl⟩
        · exact Or.inr (List.mem_cons_of_mem _ hmem)

theorem mem_of_get_some {l : List HistoryItem} {i : Nat} {a : HistoryItem}
    (h : l[i]? = some a) : a ∈ l := by
  rw [List.getElem?_eq_some] at h
  rcases h with ⟨hlt, rfl⟩
  exact List.getElem_mem hlt

theorem updateHistory_eq_some {sid : String} {h : List HistoryItem} {i : Nat}
    (d : String) (rs : List GenerationResult)
    (hf : findIndex (fun item => item.id == sid) h = some i) :
    updateHistory d sid rs h = setResultsAt h i rs := by
  unfold updateHistory
  rw [hf]

theorem updateHistory_eq_none {sid : String} {h : List HistoryItem}
    (d : String) (rs : List GenerationResult)
    (hf : findIndex (fun item => item.id == sid) h = none) :
    updateHistory d sid rs h = ⟨sid, d, rs⟩ :: h := by
  unfold updateHistory
  rw [hf]

theorem mem_updateHistory (d sid : String) (rs : List GenerationResult)
    (h : List HistoryItem) (item : HistoryItem) :
    item ∈ updateHistory d sid rs h →
    item = ⟨sid, d, rs⟩ ∨ (∃ orig ∈ h, item = { orig with results := rs }) ∨ item ∈ h := by
  rcases hf : findIndex (fun it => it.id == sid) h with _ | i
  · rw [updateHistory_eq_none d rs hf]
    intro hm
    simp only [List.mem_cons] at hm
    rcases hm with rfl | hm
    · exact Or.inl rfl
    · exact Or.inr (Or.inr hm)
  · rw [updateHistory_eq_some d rs hf]
    intro hm
    rcases mem_setResultsAt h i rs item hm with hcase | hcase
    · exact Or.inr (Or.inl hcase)
    · exact Or.inr (Or.inr hcase)

theorem updateHistory_has_id (d sid : String) (rs : List GenerationResult)
    (h : List HistoryItem) :
    ∃ item ∈ updateHistory d sid rs h, item.id = sid := by
  rcases hf : findIndex (fun it => it.id == sid) h with _ | i
  · rw [updateHistory_eq_none d rs hf]
    exact ⟨⟨sid, d, rs⟩, List.mem_cons_self _ _, rfl⟩
  · rw [updateHistory_eq_some d rs hf]
    rcases findIndex_some_spec _ h i hf with ⟨item, hget, hp⟩
    have hid : item.id = sid := by simpa using hp
    refine ⟨{ item with results := rs }, ?_, hid⟩
    exact mem_of_get_some (setResultsAt_get_eq h i rs item hget)

/-- C7: upsert is idempotent — calling updateHistory twice with the same
session identifier and outcome list yields exactly the history obtained
from calling it once, regardless of the dates the two calls would stamp
on a newly created entry. -/
theorem c7_updateHistory_idempotent (d1 d2 sid : String)
    (rs : List GenerationResult) (h : List HistoryItem) :
    updateHistory d2 sid rs (updateHistory d1 sid rs h) = updateHistory d1 sid rs h := by
  rcases hf : findIndex (fun it => it.id == sid) h with _ | i
  · rw [updateHistory_eq_none d1 rs hf]
    have hf2 : findIndex (fun it => it.id == sid)
        (⟨sid, d1, rs⟩ :: h : List HistoryItem) = some 0 := by
      simp [findIndex]
    rw [updateHistory_eq_some d2 rs hf2]
    simp [setResultsAt]
  · rw [updateHistory_eq_some d1 rs hf]
    have hf2 : findIndex (fun it => it.id == sid) (setResultsAt h i rs) = some i := by
      rw [findIndex_setResultsAt, hf]
    rw [updateHistory_eq_some d2 rs hf2, setResultsAt_setResultsAt]

/-- C8: upserting an absent session inserts the new entry at the head;
upserting a present session replaces exactly the first matching entry's
outcome list in place, preserving its identifier, date and position, the
total length, and every other entry. -/
theorem c8_updateHistory_upsert (d sid : String) (rs : List GenerationResult)
    (h : List HistoryItem) :
    ((∀ item ∈ h, item.id ≠ sid) →
      updateHistory d sid rs h = ⟨sid, d, rs⟩ :: h) ∧
    (∀ i, findIndex (fun item => item.id == sid) h = some i →
      (updateHistory d sid rs h).length = h.length ∧
      (∀ j, j ≠ i → (updateHistory d sid rs h)[j]? = h[j]?) ∧
      (∀ item, h[i]? = some item →
        (updateHistory d sid rs h)[i]? = some { item with results := rs })) := by
  constructor
  · intro habs
    exact updateHistory_eq_none d rs (findIndex_eq_none sid h habs)
  · intro i hf
    rw [updateHistory_eq_some d rs hf]
    exact ⟨setResultsAt_length h i rs,
      fun j hj => setResultsAt_get_ne h i rs j hj,
      fun item hit => setResultsAt_get_eq h i rs item hit⟩

/-- Witness for C8 at a concrete history: inserting a fresh session at the
head, and updating an existing session in place. -/
theorem c8_updateHistory_upsert_witness :
    updateHistory "d" "s2" [⟨"p", ["i"], none⟩]
        [⟨"s1", "d1", []⟩] = [⟨"s2", "d", [⟨"p", ["i"], none⟩]⟩, ⟨"s1", "d1", []⟩] ∧
    (updateHistory "d" "s1" [⟨"p", ["i"], none⟩]
        [⟨"s0", "d0", []⟩, ⟨"s1", "d1", []⟩])[1]?
      = some ⟨"s1", "d1", [⟨"p", ["i"], none⟩]⟩ := by
  constructor
  · exact (c8_updateHistory_upsert "d" "s2" [⟨"p", ["i"], none⟩] [⟨"s1", "d1", []⟩]).1
      (by decide)
  · exact ((c8_updateHistory_upsert "d" "s1" [⟨"p", ["i"], none⟩]
      [⟨"s0", "d0", []⟩, ⟨"s1", "d1", []⟩]).2 1 (by decide)).2.2 ⟨"s1", "d1", []⟩ (by decide)

theorem checks_mk (pool : List ApiKey) (results : List GenerationResult)
    (history : List HistoryItem) (calls cp ca cw cpo el sk : Nat) :
    (RunSt.mk pool results history calls cp ca cw cpo el sk).checks = cp + ca + cw + cpo := rfl

theorem tryLoop_prompt_rejection (gw : Gateway) (c : Option Nat) (p : String)
    (n fuel keyIdx : Nat) (ak : List ApiKey) (st : RunSt) (e : JsError)
    (hstop : stoppedAt c st.checks = false)
    (hne : (activeKeys ak).isEmpty = false)
    (hgw : gw st.calls p
        (((activeKeys ak).getD (keyIdx % (activeKeys ak).length) dfltKey).key) n
      = .error e)
    (hpe : isPromptError e = true) :
    tryLoop gw c p n ak (fuel + 1) keyIdx st =
      (some ⟨p, [], some (getErrorMessage e)⟩, false,
        keyIdx % (activeKeys ak).length,
        { st with checksAttempt := st.checksAttempt + 1, calls := st.calls + 1 }) := by
  simp only [tryLoop, hstop, Bool.false_eq_true, if_false]
  simp only [hne, Bool.false_eq_true, if_false]
  rw [hgw]
  simp only [hpe, if_true]

theorem tryLoop_other_failure (gw : Gateway) (c : Option Nat) (p : String)
    (n fuel keyIdx : Nat) (ak : List ApiKey) (st : RunSt) (e : JsError)
    (hstop : stoppedAt c st.checks = false)
    (hne : (activeKeys ak).isEmpty = false)
    (hgw : gw st.calls p
        (((activeKeys ak).getD (keyIdx % (activeKeys ak).length) dfltKey).key) n
      = .error e)
    (hpe : isPromptError e = false)
    (hrl : isRateLimitError e = false) :
    tryLoop gw c p n ak (fuel + 1) keyIdx st =
      tryLoop gw c p n ak fuel (keyIdx % (activeKeys ak).length + 1)
        { st with
          pool := updateApiKeyStatus
            (((activeKeys ak).getD (keyIdx % (activeKeys ak).length) dfltKey).key)
            ApiKeyStatus.RateLimited st.pool,
          checksAttempt := st.checksAttempt + 1,
          calls := st.calls + 1 } := by
  simp only [tryLoop, hstop, Bool.false_eq_true, if_false]
  simp only [hne, Bool.false_eq_true, if_false]
  rw [hgw]
  simp only [hpe, hrl, Bool.false_eq_true, if_false]

theorem tryLoop_rate_limit (gw : Gateway) (c : Option Nat) (p : String)
    (n fuel keyIdx : Nat) (ak : List ApiKey) (st : RunSt) (e : JsError)
    (hstop : stoppedAt c st.checks = false)
    (hne : (activeKeys ak).isEmpty = false)
    (hgw : gw st.calls p
        (((activeKeys ak).getD (keyIdx % (activeKeys ak).length) dfltKey).key) n
      = .error e)
    (hpe : isPromptError e = false)
    (hrl : isRateLimitError e = true) :
    tryLoop gw c p n ak (fuel + 1) keyIdx st =
      tryLoop gw c p n ak fuel (keyIdx % (activeKeys ak).length + 1)
        { st with
          pool := updateApiKeyStatus
            (((activeKeys ak).getD (keyIdx % (activeKeys ak).length) dfltKey).key)
            ApiKeyStatus.RateLimited st.pool,
          checksAttempt := st.checksAttempt + 1,
          checksWait := st.checksWait + 1,
          calls := st.calls + 1,
          elapsed := st.elapsed + (if stoppedAt c (st.checks + 1) then 0 else 2) } := by
  simp only [tryLoop, hstop, Bool.false_eq_true, if_false]
  simp only [hne, Bool.false_eq_true, if_false]
  rw [hgw]
  simp only [hpe, Bool.false_eq_true, if_false, hrl, if_true]
  simp only [checks_mk]
  have harg : st.checksPrompt + (st.checksAttempt + 1) + st.checksWait + st.checksPost
      = st.checks + 1 := by simp only [RunSt.checks]; omega
  simp only [harg]


/-- C4: a failure classified as a prompt rejection terminates the retry
loop for that prompt at once — the outcome carries the extracted message
and no images, the key pool is untouched by the attempt, exactly one
further gateway call was made, and no further credential is tried. -/
theorem c4_prompt_rejection_terminal (gw : Gateway) (c : Option Nat) (p : String)
    (n fuel keyIdx : Nat) (ak : List ApiKey) (st : RunSt) (e : JsError)
    (hstop : stoppedAt c st.checks = false)
    (hne : (activeKeys ak).isEmpty = false)
    (hgw : gw st.calls p
        (((activeKeys ak).getD (keyIdx % (activeKeys ak).length) dfltKey).key) n
      = .error e)
    (hpe : isPromptError e = true) :
    tryLoop gw c p n ak (fuel + 1) keyIdx st =
      (some ⟨p, [], some (getErrorMessage e)⟩, false,
        keyIdx % (activeKeys ak).length,
        { st with checksAttempt := st.checksAttempt + 1, calls := st.calls + 1 }) :=
  tryLoop_prompt_rejection gw c p n fuel keyIdx ak st e hstop hne hgw hpe

/-- C5: a failure that is not a prompt rejection degrades the credential
used; when it is a rate-limit failure, a cancellation check guards a
2-time-unit cool-down (which elapses in full exactly when the run is not
cancelled at that check) before the loop moves on with attempts and index
each incremented by one, and when it is any other failure the loop moves
on the same way with no cool-down at all. -/
theorem c5_failure_rotation (gw : Gateway) (c : Option Nat) (p : String)
    (n fuel keyIdx : Nat) (ak : List ApiKey) (st : RunSt) (e : JsError)
    (hstop : stoppedAt c st.checks = false)
    (hne : (activeKeys ak).isEmpty = false)
    (hgw : gw st.calls p
        (((activeKeys ak).getD (keyIdx % (activeKeys ak).length) dfltKey).key) n
      = .error e)
    (hpe : isPromptError e = false) :
    (isRateLimitError e = true →
      tryLoop gw c p n ak (fuel + 1) keyIdx st =
        tryLoop gw c p n ak fuel (keyIdx % (activeKeys ak).length + 1)
          { st with
            pool := updateApiKeyStatus
              (((activeKeys ak).getD (keyIdx % (activeKeys ak).length) dfltKey).key)
              ApiKeyStatus.RateLimited st.pool,
            checksAttempt := st.checksAttempt + 1,
            checksWait := st.checksWait + 1,
            calls := st.calls + 1,
            elapsed := st.elapsed + (if stoppedAt c (st.checks + 1) then 0 else 2) }) ∧
    (isRateLimitError e = false →
      tryLoop gw c p n ak (fuel + 1) keyIdx st =
        tryLoop gw c p n ak fuel (keyIdx % (activeKeys ak).length + 1)
          { st with
            pool := updateApiKeyStatus
              (((activeKeys ak).getD (keyIdx % (activeKeys ak).length) dfltKey).key)
              ApiKeyStatus.RateLimited st.pool,
            checksAttempt := st.checksAttempt + 1,
            calls := st.calls + 1 }) :=
  ⟨fun hrl => tryLoop_rate_limit gw c p n fuel keyIdx ak st e hstop hne hgw hpe hrl,
   fun hrl => tryLoop_other_failure gw c p n fuel keyIdx ak st e hstop hne hgw hpe hrl⟩

/-- C9: any error whose extracted message, lowercased, contains the
substring prompt or the substring safety is classified as a prompt
rejection, and the retry loop then stops at once with the rejection
outcome and an untouched key pool — even when the very same error also
passes the rate-limit classifier. -/
theorem c9_prompt_bucket_precedence (gw : Gateway) (c : Option Nat) (p : String)
    (n fuel keyIdx : Nat) (ak : List ApiKey) (st : RunSt) (e : JsError)
    (hstop : stoppedAt c st.checks = false)
    (hne : (activeKeys ak).isEmpty = false)
    (hgw : gw st.calls p
        (((activeKeys ak).getD (keyIdx % (activeKeys ak).length) dfltKey).key) n
      = .error e)
    (hmsg : containsSub (toLowerS (getErrorMessage e)) "prompt" = true ∨
      containsSub (toLowerS (getErrorMessage e)) "safety" = true)
    (hrl : isRateLimitError e = true) :
    isPromptError e = true ∧
    tryLoop gw c p n ak (fuel + 1) keyIdx st =
      (some ⟨p, [], some (getErrorMessage e)⟩, false,
        keyIdx % (activeKeys ak).length,
        { st with checksAttempt := st.checksAttempt + 1, calls := st.calls + 1 }) := by
  have hpe : isPromptError e = true := by
    unfold isPromptError
    rcases hmsg with hm | hm
    · simp [hm]
    · simp [hm]
  exact ⟨hpe, tryLoop_prompt_rejection gw c p n fuel keyIdx ak st e hstop hne hgw hpe⟩

theorem tryLoop_state_inv (gw : Gateway) (c : Option Nat) (p : String) (n : Nat)
    (ak : List ApiKey) :
    ∀ fuel keyIdx st,
      ((tryLoop gw c p n ak fuel keyIdx st).2.2.2).results = st.results ∧
      ((tryLoop gw c p n ak fuel keyIdx st).2.2.2).history = st.history ∧
      st.checks ≤ ((tryLoop gw c p n ak fuel keyIdx st).2.2.2).checks ∧
      (∀ r, (tryLoop gw c p n ak fuel keyIdx st).1 = some r → r.prompt = p) ∧
      ((tryLoop gw c p n ak fuel keyIdx st).2.1 = true →
        ((tryLoop gw c p n ak fuel keyIdx st).1).isSome = true) := by
  intro fuel
  induction fuel with
  | zero =>
    intro keyIdx st
    refine ⟨rfl, rfl, le_refl _, ?_, ?_⟩
    · intro r hr; cases hr
    · intro hs; cases hs
  | succ fuel ih =>
    intro keyIdx st
    simp only [tryLoop]
    by_cases h1 : stoppedAt c st.checks = true
    · simp only [h1, if_true]
      refine ⟨?_, ?_, ?_, ?_, ?_⟩ <;>
        first
          | trivial
          | (simp only [RunSt.checks, checks_mk]; omega)
          | (intro r hr; cases hr <;> rfl)
          | (intro _; rfl)
          | (intro hs; cases hs)
    · simp only [Bool.not_eq_true] at h1
      simp only [h1, Bool.false_eq_true, if_false]
      by_cases h2 : (activeKeys ak).isEmpty = true
      · simp only [h2, if_true]
        refine ⟨?_, ?_, ?_, ?_, ?_⟩ <;>
          first
            | trivial
            | (simp only [RunSt.checks, checks_mk]; omega)
            | (intro r hr; cases hr <;> rfl)
            | (intro hs; cases hs)
            | (intro _; rfl)
      · simp only [Bool.not_eq_true] at h2
        simp only [h2, Bool.false_eq_true, if_false]
        rcases hgw : gw st.calls p
            (((activeKeys ak).getD (keyIdx % (activeKeys ak).length) dfltKey).key) n
          with e | imgs
        · by_cases h3 : isPromptError e = true
          · simp only [h3, if_true]
            refine ⟨?_, ?_, ?_, ?_, ?_⟩ <;>
              first
                | trivial
                | (simp only [RunSt.checks, checks_mk]; omega)
                | (intro r hr; cases hr <;> rfl)
                | (intro _; rfl)
                | (intro hs; cases hs)
          · simp only [Bool.not_eq_true] at h3
            simp only [h3, Bool.false_eq_true, if_false]
            by_cases h4 : isRateLimitError e = true
            · simp only [h4, if_true]
              refine ⟨(ih _ _).1, (ih _ _).2.1, ?_, (ih _ _).2.2.2.1, (ih _ _).2.2.2.2⟩
              refine le_trans ?_ (ih _ _).2.2.1
              simp only [RunSt.checks, checks_mk]; omega
            · simp only [Bool.not_eq_true] at h4
              simp only [h4, Bool.false_eq_true, if_false]
              refine ⟨(ih _ _).1, (ih _ _).2.1, ?_, (ih _ _).2.2.2.1, (ih _ _).2.2.2.2⟩
              refine le_trans ?_ (ih _ _).2.2.1
              simp only [RunSt.checks, checks_mk]; omega
        · refine ⟨?_, ?_, ?_, ?_, ?_⟩ <;>
            first
              | trivial
              | (simp only [RunSt.checks, checks_mk]; omega)
              | (intro r hr; cases hr <;> rfl)
              | (intro _; rfl)
              | (intro hs; cases hs)

theorem runPrompts_none_results_map (gw : Gateway) (sid date : String) (n : Nat) (ak : List ApiKey) :
    ∀ ps keyIdx st,
      ((runPrompts gw none sid date n ak ps keyIdx st).results).map (fun r => r.prompt)
        = (st.results).map (fun r => r.prompt) ++ ps := by
  intro ps
  induction ps with
  | nil => intro keyIdx st; simp [runPrompts]
  | cons p rest ih =>
    intro keyIdx st
    simp only [runPrompts, stoppedAt_none, Bool.false_eq_true, if_false]
    rcases htl : tryLoop gw none p n ak (activeKeys ak).length keyIdx
        { st with checksPrompt := st.checksPrompt + 1 } with ⟨pr, succ, kI, st2⟩
    have hinv := tryLoop_state_inv gw none p n ak (activeKeys ak).length keyIdx
        { st with checksPrompt := st.checksPrompt + 1 }
    rw [htl] at hinv
    have hres : st2.results = st.results := hinv.1
    simp only [htl]
    rcases pr with _ | res
    · cases succ with
      | false =>
        simp only [Bool.not_false, Option.isNone_none, Bool.and_self, if_true]
        rw [ih]
        simp [hres]
      | true =>
        exact absurd (hinv.2.2.2.2 rfl) (by simp)
    · have hprompt : res.prompt = p := hinv.2.2.2.1 res rfl
      simp only [Option.isNone_some, Bool.and_false, Bool.false_eq_true, if_false]
      rw [ih]
      simp [hres, hprompt]


theorem runPrompts_none_results_append (gw : Gateway) (sid date : String) (n : Nat) (ak : List ApiKey) :
    ∀ ps keyIdx st, ∃ l,
      (runPrompts gw none sid date n ak ps keyIdx st).results = st.results ++ l := by
  intro ps
  induction ps with
  | nil => intro keyIdx st; exact ⟨[], by simp [runPrompts]⟩
  | cons p rest ih =>
    intro keyIdx st
    simp only [runPrompts, stoppedAt_none, Bool.false_eq_true, if_false]
    rcases htl : tryLoop gw none p n ak (activeKeys ak).length keyIdx
        { st with checksPrompt := st.checksPrompt + 1 } with ⟨pr, succ, kI, st2⟩
    have hinv := tryLoop_state_inv gw none p n ak (activeKeys ak).length keyIdx
        { st with checksPrompt := st.checksPrompt + 1 }
    rw [htl] at hinv
    have hres : st2.results = st.results := hinv.1
    simp only [htl]
    rcases pr with _ | res
    · cases succ with
      | false =>
        simp only [Bool.not_false, Option.isNone_none, Bool.and_self, if_true]
        rcases ih _ _ with ⟨l, hl⟩
        rw [hl]
        exact ⟨⟨p, [], some exhaustedMsg⟩ :: l, by simp [hres]⟩
      | true =>
        exact absurd (hinv.2.2.2.2 rfl) (by simp)
    · simp only [Option.isNone_some, Bool.and_false, Bool.false_eq_true, if_false]
      rcases ih _ _ with ⟨l, hl⟩
      rw [hl]
      exact ⟨res :: l, by simp [hres]⟩

theorem flush_preserves_initseg (sid date : String) (hist : List HistoryItem)
    (resultsOld : List GenerationResult) (res : GenerationResult) (cond : Bool)
    (hpre : ∀ item ∈ hist, item.id = sid → ∃ t, item.results ++ t = resultsOld) :
    ∀ item ∈ (if cond then handleGenerationUpdate sid (resultsOld ++ [res]) date hist
        else hist),
      item.id = sid → ∃ t, item.results ++ t = resultsOld ++ [res] := by
  intro item hm hid
  have hext : ∀ it ∈ hist, it.id = sid → ∃ t, it.results ++ t = resultsOld ++ [res] := by
    intro it hit hitid
    rcases hpre it hit hitid with ⟨t, ht⟩
    exact ⟨t ++ [res], by rw [← List.append_assoc, ht]⟩
  by_cases hc : cond = true
  · rw [if_pos hc] at hm
    unfold handleGenerationUpdate at hm
    by_cases hany : (resultsOld ++ [res]).any (fun r => decide (r.images.length > 0)) = true
    · rw [if_pos hany] at hm
      rcases mem_updateHistory date sid (resultsOld ++ [res]) hist item hm with h | h | h
      · exact ⟨[], by rw [h]; simp⟩
      · rcases h with ⟨orig, _, rfl⟩
        exact ⟨[], by simp⟩
      · exact hext item h hid
    · rw [if_neg hany] at hm
      exact hext item hm hid
  · rw [if_neg hc] at hm
    exact hext item hm hid

theorem flush_keeps_entry (sid date : String) (hist : List HistoryItem)
    (frs : List GenerationResult) (cond : Bool)
    (h : ∃ item ∈ hist, item.id = sid) :
    ∃ item ∈ (if cond then handleGenerationUpdate sid frs date hist else hist),
      item.id = sid := by
  by_cases hc : cond = true
  · rw [if_pos hc]
    unfold handleGenerationUpdate
    by_cases hany : frs.any (fun r => decide (r.images.length > 0)) = true
    · rw [if_pos hany]
      exact updateHistory_has_id date sid frs hist
    · rw [if_neg hany]
      exact h
  · rw [if_neg hc]
    exact h

theorem runPrompts_none_history_initseg (gw : Gateway) (sid date : String) (n : Nat) (ak : List ApiKey) :
    ∀ ps keyIdx st,
      (∀ item ∈ st.history, item.id = sid → ∃ t, item.results ++ t = st.results) →
      ∀ item ∈ (runPrompts gw none sid date n ak ps keyIdx st).history, item.id = sid →
        ∃ t, item.results ++ t = (runPrompts gw none sid date n ak ps keyIdx st).results := by
  intro ps
  induction ps with
  | nil =>
    intro keyIdx st hpre
    simpa [runPrompts] using hpre
  | cons p rest ih =>
    intro keyIdx st hpre
    simp only [runPrompts, stoppedAt_none, Bool.false_eq_true, if_false]
    rcases htl : tryLoop gw none p n ak (activeKeys ak).length keyIdx
        { st with checksPrompt := st.checksPrompt + 1 } with ⟨pr, succ, kI, st2⟩
    have hinv := tryLoop_state_inv gw none p n ak (activeKeys ak).length keyIdx
        { st with checksPrompt := st.checksPrompt + 1 }
    rw [htl] at hinv
    have hres : st2.results = st.results := hinv.1
    have hhist : st2.history = st.history := hinv.2.1
    have hpre2 : ∀ item ∈ st2.history, item.id = sid →
        ∃ t, item.results ++ t = st2.results := by
      rw [hres, hhist]; exact hpre
    simp only [htl]
    rcases pr with _ | res
    · cases succ with
      | false =>
        simp only [Bool.not_false, Option.isNone_none, Bool.and_self, if_true]
        exact ih kI _ (flush_preserves_initseg sid date st2.history st2.results
          ⟨p, [], some exhaustedMsg⟩
          (decide (([] : List String).length > 0) || jsTruthyStr (some exhaustedMsg)) hpre2)
      | true =>
        exact absurd (hinv.2.2.2.2 rfl) (by simp)
    · simp only [Option.isNone_some, Bool.and_false, Bool.false_eq_true, if_false]
      exact ih kI _ (flush_preserves_initseg sid date st2.history st2.results res
        (decide (res.images.length > 0) || jsTruthyStr res.error) hpre2)

theorem runPrompts_none_keeps_entry (gw : Gateway) (sid date : String) (n : Nat) (ak : List ApiKey) :
    ∀ ps keyIdx st,
      (∃ item ∈ st.history, item.id = sid) →
      ∃ item ∈ (runPrompts gw none sid date n ak ps keyIdx st).history, item.id = sid := by
  intro ps
  induction ps with
  | nil =>
    intro keyIdx st h
    simpa [runPrompts] using h
  | cons p rest ih =>
    intro keyIdx st h
    simp only [runPrompts, stoppedAt_none, Bool.false_eq_true, if_false]
    rcases htl : tryLoop gw none p n ak (activeKeys ak).length keyIdx
        { st with checksPrompt := st.checksPrompt + 1 } with ⟨pr, succ, kI, st2⟩
    have hinv := tryLoop_state_inv gw none p n ak (activeKeys ak).length keyIdx
        { st with checksPrompt := st.checksPrompt + 1 }
    rw [htl] at hinv
    have hhist : st2.history = st.history := hinv.2.1
    have h2 : ∃ item ∈ st2.history, item.id = sid := by rw [hhist]; exact h
    simp only [htl]
    rcases pr with _ | res
    · cases succ with
      | false =>
        simp only [Bool.not_false, Option.isNone_none, Bool.and_self, if_true]
        exact ih kI _ (flush_keeps_entry sid date st2.history
          (st2.results ++ [⟨p, [], some exhaustedMsg⟩])
          (decide (([] : List String).length > 0) || jsTruthyStr (some exhaustedMsg)) h2)
      | true =>
        exact absurd (hinv.2.2.2.2 rfl) (by simp)
    · simp only [Option.isNone_some, Bool.and_false, Bool.false_eq_true, if_false]
      exact ih kI _ (flush_keeps_entry sid date st2.history (st2.results ++ [res])
        (decide (res.images.length > 0) || jsTruthyStr res.error) h2)


theorem runPrompts_none_imageless (gw : Gateway) (sid date : String) (n : Nat) (ak : List ApiKey) :
    ∀ ps keyIdx st,
      (∀ r ∈ (runPrompts gw none sid date n ak ps keyIdx st).results, r.images = []) →
      (runPrompts gw none sid date n ak ps keyIdx st).history = st.history ∧
      ∃ l, (runPrompts gw none sid date n ak ps keyIdx st).results = st.results ++ l := by
  intro ps
  induction ps with
  | nil =>
    intro keyIdx st _
    exact ⟨by simp [runPrompts], ⟨[], by simp [runPrompts]⟩⟩
  | cons p rest ih =>
    intro keyIdx st hall
    simp only [runPrompts, stoppedAt_none, Bool.false_eq_true, if_false] at hall ⊢
    rcases htl : tryLoop gw none p n ak (activeKeys ak).length keyIdx
        { st with checksPrompt := st.checksPrompt + 1 } with ⟨pr, succ, kI, st2⟩
    have hinv := tryLoop_state_inv gw none p n ak (activeKeys ak).length keyIdx
        { st with checksPrompt := st.checksPrompt + 1 }
    rw [htl] at hinv
    have hres : st2.results = st.results := hinv.1
    have hhist : st2.history = st.history := hinv.2.1
    simp only [htl] at hall ⊢
    rcases pr with _ | res
    · cases succ with
      | false =>
        simp only [Bool.not_false, Option.isNone_none, Bool.and_self, if_true] at hall ⊢
        rcases ih kI _ hall with ⟨hh, l, hl⟩
        have hmem : ∀ r ∈ st2.results ++ [(⟨p, [], some exhaustedMsg⟩ : GenerationResult)],
            r.images = ([] : List String) := by
          intro r hr
          exact hall r (by rw [hl]; exact List.mem_append_left _ hr)
        have hany : (st2.results ++ [(⟨p, [], some exhaustedMsg⟩ : GenerationResult)]).any
            (fun r => decide (r.images.length > 0)) = false := by
          rw [List.any_eq_false]
          intro r hr
          simp [hmem r hr]
        have hflush : (if (decide (([] : List String).length > 0)
              || jsTruthyStr (some exhaustedMsg)) = true then
            handleGenerationUpdate sid
              (st2.results ++ [(⟨p, [], some exhaustedMsg⟩ : GenerationResult)]) date
              st2.history
          else st2.history) = st2.history := by
          unfold handleGenerationUpdate
          simp only [hany, Bool.false_eq_true, if_false, ite_self]
        constructor
        · rw [hh]
          exact hflush.trans hhist
        · refine ⟨⟨p, [], some exhaustedMsg⟩ :: l, ?_⟩
          rw [hl]
          simp [hres]
      | true =>
        exact absurd (hinv.2.2.2.2 rfl) (by simp)
    · simp only [Option.isNone_some, Bool.and_false, Bool.false_eq_true, if_false] at hall ⊢
      rcases ih kI _ hall with ⟨hh, l, hl⟩
      have hmem : ∀ r ∈ st2.results ++ [res], r.images = ([] : List String) := by
        intro r hr
        exact hall r (by rw [hl]; exact List.mem_append_left _ hr)
      have hany : (st2.results ++ [res]).any (fun r => decide (r.images.length > 0))
          = false := by
        rw [List.any_eq_false]
        intro r hr
        simp [hmem r hr]
      have hflush : (if (decide (res.images.length > 0) || jsTruthyStr res.error) = true then
            handleGenerationUpdate sid (st2.results ++ [res]) date st2.history
          else st2.history) = st2.history := by
        unfold handleGenerationUpdate
        simp only [hany, Bool.false_eq_true, if_false, ite_self]
      constructor
      · rw [hh]
        exact hflush.trans hhist
      · refine ⟨res :: l, ?_⟩
        rw [hl]
        simp [hres]


theorem flush_creates_entry (sid date : String) (hist : List HistoryItem)
    (frs : List GenerationResult) (cond : Bool) (hcond : cond = true)
    (hany : frs.any (fun r => decide (r.images.length > 0)) = true) :
    ∃ item ∈ (if cond then handleGenerationUpdate sid frs date hist else hist),
      item.id = sid := by
  subst hcond
  rw [if_pos rfl]
  unfold handleGenerationUpdate
  rw [if_pos hany]
  exact updateHistory_has_id date sid frs hist

theorem runPrompts_none_creates_entry (gw : Gateway) (sid date : String) (n : Nat) (ak : List ApiKey) :
    ∀ ps keyIdx st l,
      (runPrompts gw none sid date n ak ps keyIdx st).results = st.results ++ l →
      (∃ r ∈ l, r.images ≠ []) →
      ∃ item ∈ (runPrompts gw none sid date n ak ps keyIdx st).history, item.id = sid := by
  intro ps
  induction ps with
  | nil =>
    intro keyIdx st l hl hex
    rcases hex with ⟨r, hr, _⟩
    have h0 : st.results ++ [] = st.results ++ l := by
      simpa [runPrompts] using hl
    have hnil : l = [] := (List.append_cancel_left h0).symm
    rw [hnil] at hr
    cases hr
  | cons p rest ih =>
    intro keyIdx st l hl hex
    simp only [runPrompts, stoppedAt_none, Bool.false_eq_true, if_false] at hl ⊢
    rcases htl : tryLoop gw none p n ak (activeKeys ak).length keyIdx
        { st with checksPrompt := st.checksPrompt + 1 } with ⟨pr, succ, kI, st2⟩
    have hinv := tryLoop_state_inv gw none p n ak (activeKeys ak).length keyIdx
        { st with checksPrompt := st.checksPrompt + 1 }
    rw [htl] at hinv
    have hres : st2.results = st.results := hinv.1
    simp only [htl] at hl ⊢
    rcases pr with _ | res
    · cases succ with
      | false =>
        simp only [Bool.not_false, Option.isNone_none, Bool.and_self, if_true] at hl ⊢
        rcases runPrompts_none_results_append gw sid date n ak rest kI _ with ⟨l2, hl2⟩
        rw [hl2] at hl
        have hl3 : (st2.results ++ [(⟨p, [], some exhaustedMsg⟩ : GenerationResult)]) ++ l2
            = st.results ++ l := hl
        rw [hres, List.append_assoc] at hl3
        have hleq : l = ⟨p, [], some exhaustedMsg⟩ :: l2 :=
          (List.append_cancel_left hl3).symm
        rcases hex with ⟨r, hr, himg⟩
        rw [hleq] at hr
        rcases List.mem_cons.mp hr with rfl | hr2
        · exact absurd rfl himg
        · exact ih kI _ l2 hl2 ⟨r, hr2, himg⟩
      | true =>
        exact absurd (hinv.2.2.2.2 rfl) (by simp)
    · simp only [Option.isNone_some, Bool.and_false, Bool.false_eq_true, if_false] at hl ⊢
      rcases runPrompts_none_results_append gw sid date n ak rest kI _ with ⟨l2, hl2⟩
      rw [hl2] at hl
      have hl3 : (st2.results ++ [res]) ++ l2 = st.results ++ l := hl
      rw [hres, List.append_assoc] at hl3
      have hleq : l = res :: l2 := (List.append_cancel_left hl3).symm
      rcases hex with ⟨r, hr, himg⟩
      rw [hleq] at hr
      rcases List.mem_cons.mp hr with rfl | hr2
      · have hpos : decide (r.images.length > 0) = true := by
          simp [List.length_pos, himg]
        have hany : (st2.results ++ [r]).any (fun x => decide (x.images.length > 0))
            = true := by
          rw [List.any_eq_true]
          exact ⟨r, List.mem_append_right _ (List.mem_singleton_self r), hpos⟩
        exact runPrompts_none_keeps_entry gw sid date n ak rest kI _
          (flush_creates_entry sid date st2.history (st2.results ++ [r])
            (decide (r.images.length > 0) || jsTruthyStr r.error) (by simp [hpos]) hany)
      · exact ih kI _ l2 hl2 ⟨r, hr2, himg⟩


theorem tryLoop_cancel_dichotomy (gw : Gateway) (p : String) (n t : Nat)
    (ak : List ApiKey) :
    ∀ fuel keyIdx st,
      tryLoop gw (some t) p n ak fuel keyIdx st = tryLoop gw none p n ak fuel keyIdx st ∨
      t ≤ ((tryLoop gw (some t) p n ak fuel keyIdx st).2.2.2).checks := by
  intro fuel
  induction fuel with
  | zero => intro keyIdx st; exact Or.inl rfl
  | succ fuel ih =>
    intro keyIdx st
    by_cases h1 : stoppedAt (some t) st.checks = true
    · right
      have ht : t ≤ st.checks := by simpa [stoppedAt] using h1
      simp only [tryLoop, h1, if_true]
      simp only [RunSt.checks, checks_mk] at ht ⊢
      omega
    · simp only [Bool.not_eq_true] at h1
      simp only [tryLoop, h1, stoppedAt_none, Bool.false_eq_true, if_false]
      by_cases h2 : (activeKeys ak).isEmpty = true
      · simp only [h2, if_true]
        first
          | exact Or.inl rfl
          | exact Or.inl trivial
      · simp only [Bool.not_eq_true] at h2
        simp only [h2, Bool.false_eq_true, if_false]
        rcases hgw : gw st.calls p
            (((activeKeys ak).getD (keyIdx % (activeKeys ak).length) dfltKey).key) n
          with e | imgs
        · by_cases h3 : isPromptError e = true
          · simp only [h3, if_true]
            first
              | exact Or.inl rfl
              | exact Or.inl trivial
          · simp only [Bool.not_eq_true] at h3
            simp only [h3, Bool.false_eq_true, if_false]
            by_cases h4 : isRateLimitError e = true
            · simp only [h4, if_true]
              simp only [checks_mk]
              have harg : st.checksPrompt + (st.checksAttempt + 1) + st.checksWait
                  + st.checksPost = st.checks + 1 := by
                simp only [RunSt.checks]; omega
              simp only [harg]
              by_cases hw : stoppedAt (some t) (st.checks + 1) = true
              · right
                have ht1 : t ≤ st.checks + 1 := by simpa [stoppedAt] using hw
                refine le_trans ?_ (tryLoop_state_inv gw (some t) p n ak fuel _ _).2.2.1
                simp only [checks_mk, RunSt.checks] at ht1 ⊢
                omega
              · simp only [Bool.not_eq_true] at hw
                simp only [hw, Bool.false_eq_true, if_false]
                exact ih _ _
            · simp only [Bool.not_eq_true] at h4
              simp only [h4, Bool.false_eq_true, if_false]
              exact ih _ _
        · first
            | exact Or.inl rfl
            | exact Or.inl trivial

theorem runPrompts_cancel_initseg (gw : Gateway) (sid date : String) (n t : Nat)
    (ak : List ApiKey) :
    ∀ ps keyIdx st, ∃ l,
      (runPrompts gw (some t) sid date n ak ps keyIdx st).results ++ l
        = (runPrompts gw none sid date n ak ps keyIdx st).results := by
  intro ps
  induction ps with
  | nil => exact fun keyIdx st => ⟨[], by simp [runPrompts]⟩
  | cons p rest ih =>
    intro keyIdx st
    by_cases h1 : stoppedAt (some t) st.checks = true
    · have hc : runPrompts gw (some t) sid date n ak (p :: rest) keyIdx st
          = { st with checksPrompt := st.checksPrompt + 1 } := by
        simp only [runPrompts, h1, if_true]
      rw [hc]
      rcases runPrompts_none_results_append gw sid date n ak (p :: rest) keyIdx st with ⟨l, hl⟩
      exact ⟨l, by rw [hl]⟩
    · simp only [Bool.not_eq_true] at h1
      rcases tryLoop_cancel_dichotomy gw p n t ak (activeKeys ak).length keyIdx
          { st with checksPrompt := st.checksPrompt + 1 } with heq | hT
      · simp only [runPrompts, h1, stoppedAt_none, Bool.false_eq_true, if_false, heq]
        rcases htl : tryLoop gw none p n ak (activeKeys ak).length keyIdx
            { st with checksPrompt := st.checksPrompt + 1 } with ⟨pr, succ, kI, st2⟩
        have hinv := tryLoop_state_inv gw none p n ak (activeKeys ak).length keyIdx
            { st with checksPrompt := st.checksPrompt + 1 }
        rw [htl] at hinv
        have hres : st2.results = st.results := hinv.1
        simp only [htl]
        by_cases h2 : stoppedAt (some t) st2.checks = true
        · simp only [h2, if_true]
          rcases pr with _ | res
          · cases succ with
            | false =>
              simp only [Bool.not_false, Option.isNone_none, Bool.and_self, if_true]
              rcases runPrompts_none_results_append gw sid date n ak rest kI _ with ⟨l2, hl2⟩
              refine ⟨⟨p, [], some exhaustedMsg⟩ :: l2, ?_⟩
              rw [hl2]
              simp
            | true =>
              exact absurd (hinv.2.2.2.2 rfl) (by simp)
          · simp only [Option.isNone_some, Bool.and_false, Bool.false_eq_true, if_false]
            rcases runPrompts_none_results_append gw sid date n ak rest kI _ with ⟨l2, hl2⟩
            refine ⟨res :: l2, ?_⟩
            rw [hl2]
            simp
        · simp only [Bool.not_eq_true] at h2
          simp only [h2, Bool.false_eq_true, if_false]
          rcases pr with _ | res
          · cases succ with
            | false =>
              simp only [Bool.not_false, Option.isNone_none, Bool.and_self, if_true]
              exact ih _ _
            | true =>
              exact absurd (hinv.2.2.2.2 rfl) (by simp)
          · simp only [Option.isNone_some, Bool.and_false, Bool.false_eq_true, if_false]
            exact ih _ _
      · rcases htlc : tryLoop gw (some t) p n ak (activeKeys ak).length keyIdx
            { st with checksPrompt := st.checksPrompt + 1 } with ⟨pr, succ, kI, st2c⟩
        rw [htlc] at hT
        have hinvc := tryLoop_state_inv gw (some t) p n ak (activeKeys ak).length keyIdx
            { st with checksPrompt := st.checksPrompt + 1 }
        rw [htlc] at hinvc
        have hresc : st2c.results = st.results := hinvc.1
        have h2 : stoppedAt (some t) st2c.checks = true := by
          simp [stoppedAt, hT]
        have hc : runPrompts gw (some t) sid date n ak (p :: rest) keyIdx st
            = { st2c with checksPost := st2c.checksPost + 1 } := by
          simp only [runPrompts, h1, Bool.false_eq_true, if_false, htlc, h2, if_true]
        rw [hc]
        rcases runPrompts_none_results_append gw sid date n ak (p :: rest) keyIdx st with ⟨l, hl⟩
        refine ⟨l, ?_⟩
        rw [hl]
        show st2c.results ++ l = st.results ++ l
        rw [hresc]


/-- C1: for a run started with a non-empty prompt box and at least one
Active credential, and never cancelled, the guards pass and the run
produces exactly one outcome per processed prompt, in input prompt order;
any history entry persisted under the run's fresh session identifier holds
an initial segment of that outcome sequence, so outcomes are persisted in
the same order. -/
theorem c1_run_in_order (gw : Gateway) (prompts : String) (numImages : Nat)
    (apiKeys : List ApiKey) (keyIdx0 : Nat) (sid date : String) (h0 : List HistoryItem)
    (hp : trimS prompts ≠ "")
    (hk : (activeKeys apiKeys).isEmpty = false)
    (hfresh : ∀ item ∈ h0, item.id ≠ sid) :
    ∃ out, handleGenerate gw none prompts numImages apiKeys keyIdx0 sid date h0 = some out ∧
      out.results.map (fun r => r.prompt) = promptsToProcess prompts ∧
      ∀ item ∈ out.history, item.id = sid → ∃ l, item.results ++ l = out.results := by
  unfold handleGenerate
  rw [if_neg hp]
  simp only [hk, Bool.false_eq_true, if_false]
  refine ⟨_, rfl, ?_, ?_⟩
  · have h := runPrompts_none_results_map gw sid date numImages apiKeys
      (promptsToProcess prompts) keyIdx0 (initSt apiKeys h0 keyIdx0)
    simpa [initSt] using h
  · exact runPrompts_none_history_initseg gw sid date numImages apiKeys
      (promptsToProcess prompts) keyIdx0 (initSt apiKeys h0 keyIdx0)
      (fun item hm hid => absurd hid (hfresh item hm))

/-- Witness for C1 at a concrete two-prompt run with one Active key and a
gateway that always succeeds. -/
theorem c1_run_in_order_witness :
    ∃ out, handleGenerate (fun _ _ _ _ => Except.ok ["img"]) none "a\nb" 1
        [⟨"k1", ApiKeyStatus.Active, AIService.Gemini⟩] 0 "s" "d" [] = some out ∧
      out.results.map (fun r => r.prompt) = promptsToProcess "a\nb" ∧
      ∀ item ∈ out.history, item.id = "s" → ∃ l, item.results ++ l = out.results :=
  c1_run_in_order (fun _ _ _ _ => Except.ok ["img"]) "a\nb" 1
    [⟨"k1", ApiKeyStatus.Active, AIService.Gemini⟩] 0 "s" "d" []
    (by decide) (by decide) (by simp)

/-- C2 (the code evaluated at the failing input): with one Active key and
a gateway that always answers a 429 rate-limit error, processing the
first prompt leaves the whole App-level pool Degraded after exactly one
gateway call — every credential has become Degraded mid-run — yet
processing the second prompt still performs a further gateway call,
because the retry loop filters the stale apiKeys array captured at run
start; both prompts end in the attempts-exhaustion fallback outcome and
the in-loop empty-set Exhausted branch never fires. -/
theorem c2_stale_pool_still_calls_gateway :
    (runPrompts (fun _ _ _ _ => Except.error
        (JsError.obj none (some "quota exceeded") none (some (JsCode.num 429)))) none
        "s" "d" 1 [⟨"k1", ApiKeyStatus.Active, AIService.Gemini⟩] ["p1"] 0
        (initSt [⟨"k1", ApiKeyStatus.Active, AIService.Gemini⟩] [] 0)).pool
      = [⟨"k1", ApiKeyStatus.RateLimited, AIService.Gemini⟩] ∧
    (runPrompts (fun _ _ _ _ => Except.error
        (JsError.obj none (some "quota exceeded") none (some (JsCode.num 429)))) none
        "s" "d" 1 [⟨"k1", ApiKeyStatus.Active, AIService.Gemini⟩] ["p1"] 0
        (initSt [⟨"k1", ApiKeyStatus.Active, AIService.Gemini⟩] [] 0)).calls = 1 ∧
    (runPrompts (fun _ _ _ _ => Except.error
        (JsError.obj none (some "quota exceeded") none (some (JsCode.num 429)))) none
        "s" "d" 1 [⟨"k1", ApiKeyStatus.Active, AIService.Gemini⟩] ["p1", "p2"] 0
        (initSt [⟨"k1", ApiKeyStatus.Active, AIService.Gemini⟩] [] 0)).calls = 2 ∧
    (runPrompts (fun _ _ _ _ => Except.error
        (JsError.obj none (some "quota exceeded") none (some (JsCode.num 429)))) none
        "s" "d" 1 [⟨"k1", ApiKeyStatus.Active, AIService.Gemini⟩] ["p1", "p2"] 0
        (initSt [⟨"k1", ApiKeyStatus.Active, AIService.Gemini⟩] [] 0)).results
      = [⟨"p1", [], some exhaustedMsg⟩, ⟨"p2", [], some exhaustedMsg⟩] := by
  refine ⟨by decide, by decide, by decide, by decide⟩

/-- C3 counterexample: a run whose single outcome carries a non-empty
error and no images is not flushed to persistence — the history stays
empty, against the claimed if-and-only-if. -/
theorem c3_error_only_not_persisted :
    (runPrompts (fun _ _ _ _ => Except.error (.errInst "Your prompt was blocked")) none
        "s" "d" 1 [⟨"k1", ApiKeyStatus.Active, AIService.Gemini⟩] ["p"] 0
        (initSt [⟨"k1", ApiKeyStatus.Active, AIService.Gemini⟩] [] 0)).results
      = [⟨"p", [], some "Your prompt was blocked"⟩] ∧
    (runPrompts (fun _ _ _ _ => Except.error (.errInst "Your prompt was blocked")) none
        "s" "d" 1 [⟨"k1", ApiKeyStatus.Active, AIService.Gemini⟩] ["p"] 0
        (initSt [⟨"k1", ApiKeyStatus.Active, AIService.Gemini⟩] [] 0)).history
      = [] := by
  constructor <;> decide

/-- C3 (amended): the accumulated sequence is flushed only when, in
addition to the resolved outcome carrying an image or a non-empty error,
the accumulated sequence contains at least one outcome with images; in
particular a never-cancelled run all of whose outcomes carry no images
persists nothing, while a run some of whose outcomes carry images does
create the session entry. -/
theorem c3_flush_requires_images (gw : Gateway) (sid date : String) (n : Nat)
    (ak : List ApiKey) (ps : List String) (keyIdx : Nat) (st : RunSt) :
    ((∀ r ∈ (runPrompts gw none sid date n ak ps keyIdx st).results, r.images = []) →
      (runPrompts gw none sid date n ak ps keyIdx st).history = st.history) ∧
    (st.results = [] →
      (∃ r ∈ (runPrompts gw none sid date n ak ps keyIdx st).results, r.images ≠ []) →
      ∃ item ∈ (runPrompts gw none sid date n ak ps keyIdx st).history, item.id = sid) := by
  constructor
  · intro hall
    exact (runPrompts_none_imageless gw sid date n ak ps keyIdx st hall).1
  · intro hinit hex
    apply runPrompts_none_creates_entry gw sid date n ak ps keyIdx st
      ((runPrompts gw none sid date n ak ps keyIdx st).results) (by rw [hinit]; simp) hex

/-- Witness for C3 (amended): an all-error run leaves the empty history
empty, and a successful run creates the session entry. -/
theorem c3_flush_requires_images_witness :
    (runPrompts (fun _ _ _ _ => Except.error (.errInst "Request safety block")) none
        "s" "d" 1 [⟨"k1", ApiKeyStatus.Active, AIService.Gemini⟩] ["p"] 0
        (initSt [⟨"k1", ApiKeyStatus.Active, AIService.Gemini⟩] [] 0)).history = [] ∧
    ∃ item ∈ (runPrompts (fun _ _ _ _ => Except.ok ["img"]) none "s" "d" 1 [⟨"k1", ApiKeyStatus.Active, AIService.Gemini⟩] ["p"] 0
        (initSt [⟨"k1", ApiKeyStatus.Active, AIService.Gemini⟩] [] 0)).history,
      item.id = "s" :=
  ⟨(c3_flush_requires_images (fun _ _ _ _ => Except.error (.errInst "Request safety block"))
      "s" "d" 1 [⟨"k1", ApiKeyStatus.Active, AIService.Gemini⟩] ["p"] 0 (initSt [⟨"k1", ApiKeyStatus.Active, AIService.Gemini⟩] [] 0)).1
      (by decide),
   (c3_flush_requires_images (fun _ _ _ _ => Except.ok ["img"])
      "s" "d" 1 [⟨"k1", ApiKeyStatus.Active, AIService.Gemini⟩] ["p"] 0 (initSt [⟨"k1", ApiKeyStatus.Active, AIService.Gemini⟩] [] 0)).2
      rfl (by decide)⟩

/-- C6 counterexample: the cancellation flag is read at a fourth point,
after the per-prompt retry loop (one post-loop read happens even in a
plain successful one-prompt run), and a cancel first observed at that
read discards the prompt's successfully resolved outcome: the gateway was
called once yet no outcome is recorded. -/
theorem c6_fourth_check_observed :
    (runPrompts (fun _ _ _ _ => Except.ok ["img"]) none "s" "d" 1 [⟨"k1", ApiKeyStatus.Active, AIService.Gemini⟩] ["p"] 0
        (initSt [⟨"k1", ApiKeyStatus.Active, AIService.Gemini⟩] [] 0)).checksPost = 1 ∧
    (runPrompts (fun _ _ _ _ => Except.ok ["img"]) (some 2) "s" "d" 1 [⟨"k1", ApiKeyStatus.Active, AIService.Gemini⟩] ["p"] 0
        (initSt [⟨"k1", ApiKeyStatus.Active, AIService.Gemini⟩] [] 0)).results = [] ∧
    (runPrompts (fun _ _ _ _ => Except.ok ["img"]) (some 2) "s" "d" 1 [⟨"k1", ApiKeyStatus.Active, AIService.Gemini⟩] ["p"] 0
        (initSt [⟨"k1", ApiKeyStatus.Active, AIService.Gemini⟩] [] 0)).calls = 1 := by
  refine ⟨by decide, by decide, by decide⟩

/-- C6 (amended): whatever read of the cooperative flag first observes the
cancellation, the outcome sequence of the cancelled run is an initial
segment of the outcome sequence of the same run without cancellation:
cancellation never removes or alters outcomes already appended, it only
stops further processing (a cancel observed at the post-loop read may
discard the final prompt's resolved but not yet appended outcome). -/
theorem c6_cancel_keeps_recorded_outcomes (gw : Gateway) (sid date : String)
    (n t : Nat) (ak : List ApiKey) (ps : List String) (keyIdx : Nat) (st : RunSt) :
    ∃ l, (runPrompts gw (some t) sid date n ak ps keyIdx st).results ++ l
      = (runPrompts gw none sid date n ak ps keyIdx st).results :=
  runPrompts_cancel_initseg gw sid date n t ak ps keyIdx st

/-- C10: generateImages rejects a blank or whitespace-only API key with
the fixed message before any provider is invoked, and an unsupported
service value also fails without a single provider call. -/
theorem c10_generateImages_guards
    (gem : String → String → Nat → Except JsError (List String))
    (opa : String → String → Except JsError (List String))
    (prompt apiKey : String) (numImages : Nat) (service : String) :
    (trimS apiKey = "" →
      generateImagesModel gem opa prompt apiKey numImages service
        = (.error (.errInst "A valid API key must be provided."), 0)) ∧
    (service ≠ "Gemini" → service ≠ "OpenAI" →
      (generateImagesModel gem opa prompt apiKey numImages service).2 = 0 ∧
      ∃ e, (generateImagesModel gem opa prompt apiKey numImages service).1
        = Except.error e) := by
  constructor
  · intro htrim
    unfold generateImagesModel
    rw [if_pos (by simp [htrim])]
  · intro hg ho
    unfold generateImagesModel
    by_cases hkey : (apiKey == "" || trimS apiKey == "") = true
    · rw [if_pos hkey]
      refine ⟨?_, ⟨.errInst "A valid API key must be provided.", ?_⟩⟩
      · first | rfl | trivial
      · first | rfl | trivial
    · rw [if_neg hkey]
      have hg' : (service == "Gemini") = false := by simp [hg]
      have ho' : (service == "OpenAI") = false := by simp [ho]
      simp only [hg', ho', Bool.false_eq_true, if_false]
      refine ⟨?_, ⟨.errInst ("Failed to call the " ++ service ++
        " API. Please check your network connection or console for details."), ?_⟩⟩
      · first | rfl | trivial
      · first | rfl | trivial

/-- Witness for C10: a whitespace-only key is rejected with the fixed
message and zero provider calls, and an unknown service fails with zero
provider calls. -/
theorem c10_generateImages_guards_witness :
    generateImagesModel (fun _ _ _ => Except.ok ["g"]) (fun _ _ => Except.ok ["o"])
        "p" "   " 1 "Gemini"
      = (.error (.errInst "A valid API key must be provided."), 0) ∧
    ((generateImagesModel (fun _ _ _ => Except.ok ["g"]) (fun _ _ => Except.ok ["o"])
        "p" "key" 1 "Other").2 = 0 ∧
      ∃ e, (generateImagesModel (fun _ _ _ => Except.ok ["g"]) (fun _ _ => Except.ok ["o"])
        "p" "key" 1 "Other").1 = Except.error e) :=
  ⟨(c10_generateImages_guards (fun _ _ _ => Except.ok ["g"]) (fun _ _ => Except.ok ["o"])
      "p" "   " 1 "Gemini").1 (by decide),
   (c10_generateImages_guards (fun _ _ _ => Except.ok ["g"]) (fun _ _ => Except.ok ["o"])
      "p" "key" 1 "Other").2 (by decide) (by decide)⟩


/-- Witness for C4: a concrete prompt-rejection error ends the retry loop
with the rejection outcome and leaves the only key Active. -/
theorem c4_prompt_rejection_terminal_witness :
    (tryLoop (fun _ _ _ _ => Except.error (JsError.errInst "Prompt was blocked")) none "p" 1 [⟨"k1", ApiKeyStatus.Active, AIService.Gemini⟩]
        (0 + 1) 0 (initSt [⟨"k1", ApiKeyStatus.Active, AIService.Gemini⟩] [] 0)).1
      = some ⟨"p", [], some "Prompt was blocked"⟩ ∧
    (tryLoop (fun _ _ _ _ => Except.error (JsError.errInst "Prompt was blocked")) none "p" 1 [⟨"k1", ApiKeyStatus.Active, AIService.Gemini⟩]
        (0 + 1) 0 (initSt [⟨"k1", ApiKeyStatus.Active, AIService.Gemini⟩] [] 0)).2.2.2.pool
      = [⟨"k1", ApiKeyStatus.Active, AIService.Gemini⟩] := by
  have h := c4_prompt_rejection_terminal
    (fun _ _ _ _ => Except.error (JsError.errInst "Prompt was blocked")) none "p" 1 0 0 [⟨"k1", ApiKeyStatus.Active, AIService.Gemini⟩]
    (initSt [⟨"k1", ApiKeyStatus.Active, AIService.Gemini⟩] [] 0)
    (JsError.errInst "Prompt was blocked") rfl (by decide) rfl (by decide)
  rw [h]
  exact ⟨by decide, by decide⟩

/-- Witness for C5: a concrete 429 failure degrades the key used and adds
the 2-unit cool-down, while a concrete transport failure degrades the key
used with no cool-down. -/
theorem c5_failure_rotation_witness :
    (tryLoop (fun _ _ _ _ =>
        Except.error (JsError.obj none (some "quota exceeded") none (some (JsCode.num 429))))
        none "p" 1 [⟨"k1", ApiKeyStatus.Active, AIService.Gemini⟩,
          ⟨"k2", ApiKeyStatus.Active, AIService.Gemini⟩]
        (0 + 1) 0
        (initSt [⟨"k1", ApiKeyStatus.Active, AIService.Gemini⟩,
          ⟨"k2", ApiKeyStatus.Active, AIService.Gemini⟩] [] 0)).2.2.2.pool
      = [⟨"k1", ApiKeyStatus.RateLimited, AIService.Gemini⟩,
         ⟨"k2", ApiKeyStatus.Active, AIService.Gemini⟩] ∧
    (tryLoop (fun _ _ _ _ =>
        Except.error (JsError.obj none (some "quota exceeded") none (some (JsCode.num 429))))
        none "p" 1 [⟨"k1", ApiKeyStatus.Active, AIService.Gemini⟩,
          ⟨"k2", ApiKeyStatus.Active, AIService.Gemini⟩]
        (0 + 1) 0
        (initSt [⟨"k1", ApiKeyStatus.Active, AIService.Gemini⟩,
          ⟨"k2", ApiKeyStatus.Active, AIService.Gemini⟩] [] 0)).2.2.2.elapsed = 2 ∧
    (tryLoop (fun _ _ _ _ => Except.error (JsError.errInst "Internal failure"))
        none "p" 1 [⟨"k1", ApiKeyStatus.Active, AIService.Gemini⟩,
          ⟨"k2", ApiKeyStatus.Active, AIService.Gemini⟩]
        (0 + 1) 0
        (initSt [⟨"k1", ApiKeyStatus.Active, AIService.Gemini⟩,
          ⟨"k2", ApiKeyStatus.Active, AIService.Gemini⟩] [] 0)).2.2.2.pool
      = [⟨"k1", ApiKeyStatus.RateLimited, AIService.Gemini⟩,
         ⟨"k2", ApiKeyStatus.Active, AIService.Gemini⟩] ∧
    (tryLoop (fun _ _ _ _ => Except.error (JsError.errInst "Internal failure"))
        none "p" 1 [⟨"k1", ApiKeyStatus.Active, AIService.Gemini⟩,
          ⟨"k2", ApiKeyStatus.Active, AIService.Gemini⟩]
        (0 + 1) 0
        (initSt [⟨"k1", ApiKeyStatus.Active, AIService.Gemini⟩,
          ⟨"k2", ApiKeyStatus.Active, AIService.Gemini⟩] [] 0)).2.2.2.elapsed = 0 := by
  have h1 := (c5_failure_rotation (fun _ _ _ _ =>
      Except.error (JsError.obj none (some "quota exceeded") none (some (JsCode.num 429))))
      none "p" 1 0 0
      [⟨"k1", ApiKeyStatus.Active, AIService.Gemini⟩,
        ⟨"k2", ApiKeyStatus.Active, AIService.Gemini⟩]
      (initSt [⟨"k1", ApiKeyStatus.Active, AIService.Gemini⟩,
        ⟨"k2", ApiKeyStatus.Active, AIService.Gemini⟩] [] 0)
      (JsError.obj none (some "quota exceeded") none (some (JsCode.num 429)))
      rfl (by decide) rfl (by decide)).1 (by decide)
  have h2 := (c5_failure_rotation
      (fun _ _ _ _ => Except.error (JsError.errInst "Internal failure")) none "p" 1 0 0
      [⟨"k1", ApiKeyStatus.Active, AIService.Gemini⟩,
        ⟨"k2", ApiKeyStatus.Active, AIService.Gemini⟩]
      (initSt [⟨"k1", ApiKeyStatus.Active, AIService.Gemini⟩,
        ⟨"k2", ApiKeyStatus.Active, AIService.Gemini⟩] [] 0)
      (JsError.errInst "Internal failure") rfl (by decide) rfl (by decide)).2 (by decide)
  rw [h1, h2]
  exact ⟨by decide, by decide, by decide, by decide⟩

/-- Witness for C9: a concrete error that passes both classifiers (a 429
code together with a message naming the prompt) is treated as a prompt
rejection, terminating the loop with the key pool untouched. -/
theorem c9_prompt_bucket_precedence_witness :
    isPromptError (JsError.obj none (some "Prompt blocked: quota exceeded") none
      (some (JsCode.num 429))) = true ∧
    (tryLoop (fun _ _ _ _ => Except.error (JsError.obj none
        (some "Prompt blocked: quota exceeded") none (some (JsCode.num 429))))
        none "p" 1 [⟨"k1", ApiKeyStatus.Active, AIService.Gemini⟩]
        (0 + 1) 0
        (initSt [⟨"k1", ApiKeyStatus.Active, AIService.Gemini⟩] [] 0)).2.2.2.pool
      = [⟨"k1", ApiKeyStatus.Active, AIService.Gemini⟩] ∧
    (tryLoop (fun _ _ _ _ => Except.error (JsError.obj none
        (some "Prompt blocked: quota exceeded") none (some (JsCode.num 429))))
        none "p" 1 [⟨"k1", ApiKeyStatus.Active, AIService.Gemini⟩]
        (0 + 1) 0
        (initSt [⟨"k1", ApiKeyStatus.Active, AIService.Gemini⟩] [] 0)).1
      = some ⟨"p", [], some "Prompt blocked: quota exceeded"⟩ := by
  have h := c9_prompt_bucket_precedence (fun _ _ _ _ => Except.error (JsError.obj none
      (some "Prompt blocked: quota exceeded") none (some (JsCode.num 429))))
    none "p" 1 0 0 [⟨"k1", ApiKeyStatus.Active, AIService.Gemini⟩]
    (initSt [⟨"k1", ApiKeyStatus.Active, AIService.Gemini⟩] [] 0)
    (JsError.obj none (some "Prompt blocked: quota exceeded") none (some (JsCode.num 429)))
    rfl (by decide) rfl (Or.inl (by decide)) (by decide)
  refine ⟨h.1, ?_, ?_⟩ <;> rw [h.2]
  · decide
  · decide

end BulkGen
